import Mathlib

set_option autoImplicit false

/-!
Shallow embedding of the request scheduling engine of this repository:
`BasicCrawler` (src/basic_crawler.js, with the earlier revision kept among the
unnamed sources) and `PuppeteerPool` (src/puppeteer_pool.js).

Conventions: asynchronous effects are made explicit (functions return the new
state together with the performed effects), fallible collaborator calls are
injected through Boolean success flags, and wall-clock timestamps are not
modelled (no claim below depends on real time).
-/

/-- Modelled from the spec: the `Request` work item (spec §3); the `Request`
class source file is not among the sources, only its fields and
`pushErrorMessage` are used by `basic_crawler.js`. The request identifier is
taken to be the URL. -/
structure Request where
  url : String
  retryCount : Nat
  noRetry : Bool
  errorMessages : List String
deriving DecidableEq, Repr

/-- Modelled from the spec: `Request.pushErrorMessage` appends the error
message to `request.errorMessages` in order of occurrence (spec §7). -/
def Request.pushErrorMessage (r : Request) (msg : String) : Request :=
  { r with errorMessages := r.errorMessages ++ [msg] }

/-- Outcome of `BasicCrawler._requestFunctionErrorHandler`: the updated
request together with which effects were performed on the source and the
crawler (reclaim, mark handled, failed-handler invocation, handled count). -/
structure ErrorHandlerResult where
  request : Request
  reclaimed : Bool
  markedHandled : Bool
  failedHandlerInvoked : Bool
  handledRequestsCount : Nat
deriving DecidableEq, Repr

/-- `BasicCrawler._requestFunctionErrorHandler` (src/basic_crawler.js lines
364-383): push the error message, then either increment `retryCount` and
reclaim the request, or mark it handled, bump `handledRequestsCount` and
invoke `handleFailedRequestFunction`. -/
def requestFunctionErrorHandler (maxRequestRetries handledRequestsCount : Nat)
    (errorMessage : String) (request : Request) : ErrorHandlerResult :=
  let request := request.pushErrorMessage errorMessage
  if request.noRetry = false ∧ request.retryCount < maxRequestRetries then
    { request := { request with retryCount := request.retryCount + 1 }
      reclaimed := true
      markedHandled := false
      failedHandlerInvoked := false
      handledRequestsCount := handledRequestsCount }
  else
    { request := request
      reclaimed := false
      markedHandled := true
      failedHandlerInvoked := true
      handledRequestsCount := handledRequestsCount + 1 }

/-- `BasicCrawler._requestFunctionErrorHandler` of the earlier revision
(src/unnamed/part_002 lines 325-349): when the crawler is no longer running
(after `abort()`), the request is reclaimed untouched; otherwise the body is
identical to the current revision, embedded by `requestFunctionErrorHandler`. -/
def requestFunctionErrorHandlerAbortable (isRunning : Bool)
    (maxRequestRetries handledRequestsCount : Nat)
    (errorMessage : String) (request : Request) : ErrorHandlerResult :=
  if isRunning = false then
    { request := request
      reclaimed := true
      markedHandled := false
      failedHandlerInvoked := false
      handledRequestsCount := handledRequestsCount }
  else
    requestFunctionErrorHandler maxRequestRetries handledRequestsCount errorMessage request

/-- Running flag of the earlier `BasicCrawler` revision (src/unnamed/part_002). -/
structure CrawlerFlags where
  isRunning : Bool
deriving DecidableEq, Repr

/-- `BasicCrawler.abort` (src/unnamed/part_002 lines 215-219) clears
`isRunning`; the pool abort and the promise rejection it also performs only
propagate the cancellation to in-flight tasks. -/
def abortCrawler (st : CrawlerFlags) : CrawlerFlags :=
  { st with isRunning := false }

/-- Repeated failures of the user handler on one request: each failure goes
through `_requestFunctionErrorHandler` (the handled-count argument is
irrelevant to the request's own evolution). -/
def iterateFailures (maxRequestRetries : Nat) : Request → List String → Request
  | r, [] => r
  | r, msg :: msgs =>
      iterateFailures maxRequestRetries
        (requestFunctionErrorHandler maxRequestRetries 0 msg r).request msgs

/-- Modelled from the spec: `RequestList` (spec §4.4); its source file is not
among the sources, only its operations are called from `basic_crawler.js`.
Pending requests are served in order and reclaimed requests return to the
front. -/
structure RequestList where
  pending : List Request
  inProgress : List Request
  handled : List Request
deriving DecidableEq, Repr

/-- Modelled from the spec: `RequestList.fetchNextRequest` pops the next
pending request and records it as in progress. -/
def RequestList.fetchNextRequest : RequestList → Option Request × RequestList
  | ⟨[], ip, h⟩ => (none, ⟨[], ip, h⟩)
  | ⟨r :: rest, ip, h⟩ => (some r, ⟨rest, r :: ip, h⟩)

/-- Modelled from the spec: `RequestList.reclaimRequest` puts the request back
at the front of pending and removes it from the in-progress set. -/
def RequestList.reclaimRequest (l : RequestList) (r : Request) : RequestList :=
  { l with pending := r :: l.pending, inProgress := l.inProgress.erase r }

/-- Modelled from the spec: `RequestList.markRequestHandled` removes the
request from the in-progress set and records it handled. -/
def RequestList.markRequestHandled (l : RequestList) (r : Request) : RequestList :=
  { l with inProgress := l.inProgress.erase r, handled := l.handled ++ [r] }

/-- Modelled from the spec: `RequestList.handledCount`. -/
def RequestList.handledCount (l : RequestList) : Nat :=
  l.handled.length

/-- Modelled from the spec: `RequestQueue` (spec §4.5); its source file is not
among the sources. An identifier (URL) appears in at most one of pending /
in-progress / handled. -/
structure RequestQueue where
  pending : List Request
  inProgress : List Request
  handled : List Request
deriving DecidableEq, Repr

/-- Modelled from the spec: whether the queue has already seen the identifier. -/
def RequestQueue.containsId (q : RequestQueue) (url : String) : Bool :=
  (q.pending ++ q.inProgress ++ q.handled).any fun r => r.url == url

/-- Modelled from the spec: `RequestQueue.addRequest` is idempotent with
respect to the identifier; `forefront = true` inserts at the head of pending. -/
def RequestQueue.addRequest (q : RequestQueue) (r : Request) (forefront : Bool) : RequestQueue :=
  if q.containsId r.url then q
  else if forefront then { q with pending := r :: q.pending }
  else { q with pending := q.pending ++ [r] }

/-- Modelled from the spec: `RequestQueue.fetchNextRequest` dequeues the next
pending request and records it in progress; `none` iff pending is empty. -/
def RequestQueue.fetchNextRequest : RequestQueue → Option Request × RequestQueue
  | ⟨[], ip, h⟩ => (none, ⟨[], ip, h⟩)
  | ⟨r :: rest, ip, h⟩ => (some r, ⟨rest, r :: ip, h⟩)

/-- Modelled from the spec: `RequestQueue.markRequestHandled`. -/
def RequestQueue.markRequestHandled (q : RequestQueue) (r : Request) : RequestQueue :=
  { q with inProgress := q.inProgress.erase r, handled := q.handled ++ [r] }

/-- Modelled from the spec: `RequestQueue.handledCount`. -/
def RequestQueue.handledCount (q : RequestQueue) : Nat :=
  q.handled.length

/-- The two optional sources a `BasicCrawler` draws requests from; the
constructor requires at least one of them. -/
structure CrawlerSources where
  requestList : Option RequestList
  requestQueue : Option RequestQueue
deriving DecidableEq, Repr

/-- `BasicCrawler._fetchNextRequest` (src/basic_crawler.js lines 268-288,
identical in src/unnamed/part_002 lines 227-247). The flag
`addRequestSucceeds` injects the possible I/O failure of
`requestQueue.addRequest` (the `catch` branch of the source). -/
def fetchNextRequest (addRequestSucceeds : Bool) (s : CrawlerSources) :
    Option Request × CrawlerSources :=
  match s.requestList with
  | none =>
      match s.requestQueue with
      | some q =>
          let (r, q') := q.fetchNextRequest
          (r, { s with requestQueue := some q' })
      | none => (none, s)
  | some l =>
      let (fetched, l') := l.fetchNextRequest
      match s.requestQueue with
      | none => (fetched, { s with requestList := some l' })
      | some q =>
          match fetched with
          | none =>
              let (r, q') := q.fetchNextRequest
              (r, { requestList := some l', requestQueue := some q' })
          | some request =>
              if addRequestSucceeds then
                let qAdded := q.addRequest request true
                let (nextRequest, q') := qAdded.fetchNextRequest
                (nextRequest,
                  { requestList := some (l'.markRequestHandled request)
                    requestQueue := some q' })
              else
                (none,
                  { requestList := some (l'.reclaimRequest request)
                    requestQueue := some q })

/-- `isMaxPagesExceeded` (src/basic_crawler.js line 184):
`maxRequestsPerCrawl && maxRequestsPerCrawl <= this.handledRequestsCount`.
The number 0 is falsy in JavaScript, hence the `m ≠ 0` conjunct. -/
def isMaxPagesExceeded (maxRequestsPerCrawl : Option Nat) (handledRequestsCount : Nat) : Bool :=
  match maxRequestsPerCrawl with
  | none => false
  | some m => decide (m ≠ 0 ∧ m ≤ handledRequestsCount)

/-- The `isTaskReadyFunction` installed by `BasicCrawler` on its autoscaled
pool (src/basic_crawler.js lines 192-196); `underlyingTaskReady` stands for
the result of `this._isTaskReadyFunction()`. -/
def crawlerIsTaskReady (maxRequestsPerCrawl : Option Nat) (handledRequestsCount : Nat)
    (underlyingTaskReady : Bool) : Bool :=
  if isMaxPagesExceeded maxRequestsPerCrawl handledRequestsCount then false
  else underlyingTaskReady

/-- The `isFinishedFunction` installed by `BasicCrawler` on its autoscaled
pool (src/basic_crawler.js lines 197-216); `underlyingFinished` stands for the
custom or default finished check. -/
def crawlerIsFinished (maxRequestsPerCrawl : Option Nat) (handledRequestsCount : Nat)
    (underlyingFinished : Bool) : Bool :=
  if isMaxPagesExceeded maxRequestsPerCrawl handledRequestsCount then true
  else underlyingFinished

/-- Observable steps of `BasicCrawler._pauseOnMigration`. -/
inductive MigrationStep where
  | pausePool (graceMillis : Nat)
  | logPauseTimeout
  | persistRequestListState
  | logPersistStateFailure
deriving DecidableEq, Repr

/-- src/basic_crawler.js line 22. -/
def SAFE_MIGRATION_WAIT_MILLIS : Nat := 20000

/-- `BasicCrawler._pauseOnMigration` (src/basic_crawler.js lines 241-260) as
the ordered trace of its effects: pause the pool with the safe-migration
grace, log when the pause rejects, then persist the request list state (when
a list is configured), logging a persistence failure. -/
def pauseOnMigration (hasRequestList pauseSucceeds persistSucceeds : Bool) :
    List MigrationStep :=
  [MigrationStep.pausePool SAFE_MIGRATION_WAIT_MILLIS]
    ++ (if pauseSucceeds then [] else [MigrationStep.logPauseTimeout])
    ++ (if hasRequestList then
          MigrationStep.persistRequestListState
            :: (if persistSucceeds then [] else [MigrationStep.logPersistStateFailure])
        else [])

/-- The pieces of crawler state read by `_loadHandledRequestCount`. -/
structure CrawlerInitState where
  requestList : Option RequestList
  requestQueue : Option RequestQueue
  handledRequestsCount : Nat
deriving DecidableEq, Repr

/-- `BasicCrawler._loadHandledRequestCount` (src/basic_crawler.js lines
396-402): prefer the queue's `handledCount()`, fall back to the list's, and
leave the counter alone when neither is present. -/
def loadHandledRequestCount (st : CrawlerInitState) : Nat :=
  match st.requestQueue with
  | some q => q.handledCount
  | none =>
      match st.requestList with
      | some l => l.handledCount
      | none => st.handledRequestsCount

/-- State touched by `BasicCrawler.run`; promises and pools are identified by
numbers, `poolsCreated` counts `new AutoscaledPool(...)` constructions. -/
structure CrawlerRunState where
  isRunningPromise : Option Nat
  autoscaledPool : Option Nat
  poolsCreated : Nat
  handledRequestsCount : Nat
deriving DecidableEq, Repr

/-- `BasicCrawler.run` (src/basic_crawler.js lines 232-239, guard identical in
src/unnamed/part_002 lines 193-208): when `isRunningPromise` is already set it
is returned as is; otherwise the handled count is loaded, a new
`AutoscaledPool` is constructed and its `run()` promise stored. -/
def runCrawler (loadedHandledCount : Nat) (st : CrawlerRunState) : Nat × CrawlerRunState :=
  match st.isRunningPromise with
  | some p => (p, st)
  | none =>
      let poolId := st.poolsCreated
      (poolId,
        { st with
            handledRequestsCount := loadedHandledCount
            autoscaledPool := some poolId
            poolsCreated := st.poolsCreated + 1
            isRunningPromise := some poolId })

/-- The `PuppeteerPool` constructor options involved in disk-cache recycling. -/
structure PoolDiskCacheOptions where
  recycleDiskCache : Bool
  headless : Bool
deriving DecidableEq, Repr

/-- Disk-cache state of a `PuppeteerPool`: the internal flag, the free list of
recyclable directories (`null` when the feature is off) and a counter naming
fresh temp directories. -/
structure PoolDiskCacheState where
  recycleDiskCache : Bool
  recycledDiskCacheDirs : Option (List String)
  nextTempDirId : Nat
deriving DecidableEq, Repr

/-- Disk-cache part of the `PuppeteerPool` constructor
(src/puppeteer_pool.js lines 157-191): the destructuring of the user's
`options.recycleDiskCache` is commented out and the local constant is
hard-coded to `false` ("Disabling the feature since tests started failing"),
so `recycledDiskCacheDirs` is `null` whatever the options say. -/
def mkPoolDiskCacheState (_options : PoolDiskCacheOptions) : PoolDiskCacheState :=
  let recycleDiskCache := false
  { recycleDiskCache := recycleDiskCache
    recycledDiskCacheDirs := if recycleDiskCache then some [] else none
    nextTempDirId := 0 }

/-- Name of the fresh temp directory `mkdtemp` creates for the disk cache
(src/puppeteer_pool.js line 36). -/
def diskCacheDirName (id : Nat) : String :=
  "puppeteer_disk_cache-" ++ toString id

/-- Disk-cache part of the `launchPuppeteerFunction` wrapper
(src/puppeteer_pool.js lines 193-219): when recycling is on, reuse the first
free directory or create a fresh one, and append a `--disk-cache-dir`
argument; returns the final argument list, the directory recorded on the
browser (`browser.recycleDiskCacheDir`) and the updated state. -/
def launchDiskCacheArgs (st : PoolDiskCacheState) (args : List String) :
    List String × Option String × PoolDiskCacheState :=
  if st.recycleDiskCache then
    match st.recycledDiskCacheDirs with
    | some (d :: rest) =>
        (args ++ ["--disk-cache-dir=" ++ d], some d,
          { st with recycledDiskCacheDirs := some rest })
    | some [] =>
        let d := diskCacheDirName st.nextTempDirId
        (args ++ ["--disk-cache-dir=" ++ d], some d,
          { st with nextTempDirId := st.nextTempDirId + 1 })
    | none =>
        -- unreachable: the free list is a list exactly when the flag is on
        (args, none, st)
  else (args, none, st)

/-- Disk-cache part of `PuppeteerPool._killInstance` (src/puppeteer_pool.js
lines 361-394): the killed instance's `recycleDiskCacheDir`, when present, is
pushed onto the `recycledDiskCacheDirs` free list and cleared on the instance
(the second component is the instance's directory after the kill). -/
def killInstanceRecycleDiskCache (st : PoolDiskCacheState) (instanceDir : Option String) :
    PoolDiskCacheState × Option String :=
  match instanceDir with
  | none => (st, none)
  | some d =>
      match st.recycledDiskCacheDirs with
      | some l => ({ st with recycledDiskCacheDirs := some (l ++ [d]) }, none)
      | none =>
          -- unreachable: an instance carries a directory only when recycling is on
          (st, none)

/-- Disk-cache part of `PuppeteerPool.destroy` (src/puppeteer_pool.js lines
517-550): after closing each browser its `recycleDiskCacheDir` is deleted,
then the free list is drained and every directory on it deleted; the result is
the list of directories removed from the filesystem together with the drained
state. -/
def destroyDeleteDiskCacheDirs (st : PoolDiskCacheState) (instanceDirs : List (Option String)) :
    List String × PoolDiskCacheState :=
  (instanceDirs.filterMap id ++ st.recycledDiskCacheDirs.getD [],
    { st with recycledDiskCacheDirs := st.recycledDiskCacheDirs.map fun _ => [] })

/-- Pages are identified by numbers. -/
abbrev Page := Nat

/-- Internal representation of a Puppeteer instance (src/puppeteer_pool.js
lines 56-67); timestamps and the browser promise are not modelled. -/
structure PuppeteerInstance where
  id : Nat
  activePages : Nat
  totalPages : Nat
  killed : Bool
deriving DecidableEq, Repr

/-- State of a `PuppeteerPool` as far as `newPage` is concerned. The JS
object maps keyed by numeric instance id are lists in insertion (= id) order;
`closedPages` and `pagesToInstances` embed the `WeakSet` / `WeakMap`;
`pageCounter` names fresh pages. -/
structure PoolState where
  reusePages : Bool
  maxOpenPagesPerInstance : Nat
  retireInstanceAfterRequestCount : Nat
  browserCounter : Nat
  activeInstances : List PuppeteerInstance
  retiredInstances : List PuppeteerInstance
  idlePages : List Page
  closedPages : List Page
  pagesToInstances : List (Page × Nat)
  pageCounter : Nat
deriving DecidableEq, Repr

/-- Update the instance with the given id in a list of instances. -/
def updateInstance (l : List PuppeteerInstance) (id : Nat)
    (f : PuppeteerInstance → PuppeteerInstance) : List PuppeteerInstance :=
  l.map fun i => if i.id = id then f i else i

/-- `PuppeteerPool._retireInstance` (src/puppeteer_pool.js lines 312-321):
move the instance from `activeInstances` to `retiredInstances` when it is
still active, otherwise do nothing. -/
def retireInstance (st : PoolState) (id : Nat) : PoolState :=
  match st.activeInstances.find? (fun i => i.id == id) with
  | none => st
  | some inst =>
      { st with
          activeInstances := st.activeInstances.filter fun i => !(i.id == id)
          retiredInstances := st.retiredInstances ++ [inst] }

/-- `PuppeteerPool._incrementPageCount` (src/puppeteer_pool.js lines 418-422):
bump `totalPages` of the instance and retire it once `totalPages` reaches
`retireInstanceAfterRequestCount` (the `lastPageOpenedAt` update is a
timestamp and is not modelled). -/
def incrementPageCount (st : PoolState) (id : Nat) : PoolState :=
  let st :=
    { st with
        activeInstances :=
          updateInstance st.activeInstances id fun i => { i with totalPages := i.totalPages + 1 }
        retiredInstances :=
          updateInstance st.retiredInstances id fun i => { i with totalPages := i.totalPages + 1 } }
  match (st.activeInstances ++ st.retiredInstances).find? (fun i => i.id == id) with
  | none => st
  | some i =>
      if st.retireInstanceAfterRequestCount ≤ i.totalPages then retireInstance st i.id
      else st

/-- The `instance.activePages++` step of `PuppeteerPool._openNewTab`
(src/puppeteer_pool.js line 473). -/
def bumpActivePages (st : PoolState) (id : Nat) : PoolState :=
  { st with
      activeInstances :=
        updateInstance st.activeInstances id fun i => { i with activePages := i.activePages + 1 }
      retiredInstances :=
        updateInstance st.retiredInstances id fun i => { i with activePages := i.activePages + 1 } }

/-- `PuppeteerPool._launchInstance` (src/puppeteer_pool.js lines 245-257):
allocate the next browser id and register a fresh active instance (the async
browser initialization is not modelled). -/
def launchInstance (st : PoolState) : PuppeteerInstance × PoolState :=
  let inst : PuppeteerInstance :=
    { id := st.browserCounter, activePages := 0, totalPages := 0, killed := false }
  (inst,
    { st with
        browserCounter := st.browserCounter + 1
        activeInstances := st.activeInstances ++ [inst] })

/-- Instance selection of `PuppeteerPool._openNewTab` (src/puppeteer_pool.js
lines 467-471): the first active instance with
`activePages < maxOpenPagesPerInstance`, or else a freshly launched instance. -/
def openNewTabPick (st : PoolState) : PuppeteerInstance × PoolState :=
  match st.activeInstances.find? (fun i => decide (i.activePages < st.maxOpenPagesPerInstance)) with
  | some i => (i, st)
  | none => launchInstance st

/-- Identifier of the instance `_openNewTab` uses on a given state. -/
def openNewTabInstanceId (st : PoolState) : Nat :=
  (openNewTabPick st).1.id

/-- `PuppeteerPool._openNewTab` (src/puppeteer_pool.js lines 466-487):
pick the first active instance with `activePages < maxOpenPagesPerInstance`
(launching a new one when there is none), bump its page counters, then open
the browser page. `newPageSucceeds` injects whether `browser.newPage()`
resolves; on failure the instance is retired and the error propagates, which
the embedding renders as a `none` page. -/
def openNewTab (newPageSucceeds : Bool) (st : PoolState) : Option Page × PoolState :=
  let picked := openNewTabPick st
  let inst := picked.1
  let st := incrementPageCount picked.2 inst.id
  let st := bumpActivePages st inst.id
  if newPageSucceeds then
    let page : Page := st.pageCounter
    (some page,
      { st with
          pageCounter := st.pageCounter + 1
          pagesToInstances := (page, inst.id) :: st.pagesToInstances })
  else
    (none, retireInstance st inst.id)

/-- The decorated `page.close()` (src/puppeteer_pool.js lines 495-511) records
the page in `closedPages`; the browser-side `targetdestroyed` event that later
decrements `activePages` is asynchronous and not modelled. -/
def closePage (st : PoolState) (p : Page) : PoolState :=
  { st with closedPages := p :: st.closedPages }

/-- The `while (idlePage = this.idlePages.shift())` loop of
`PuppeteerPool.newPage` (src/puppeteer_pool.js lines 433-456): shift idle
pages until one is live (not closed and its instance active), closing
still-open pages of inactive instances, and fall through to `_openNewTab`
when the queue empties. The popped queue is the explicit list argument while
the state carries `idlePages := []`. Pages missing from `pagesToInstances`
are skipped (unreachable: every page handed out by the pool is registered
there on creation). -/
def newPageLoop (newPageSucceeds : Bool) : List Page → PoolState → Option Page × PoolState
  | [], st => openNewTab newPageSucceeds st
  | p :: rest, st =>
      match st.pagesToInstances.lookup p with
      | none => newPageLoop newPageSucceeds rest st
      | some instId =>
          let pageIsNotClosed := !(st.closedPages.contains p)
          let instanceIsActive := (st.activeInstances.find? (fun i => i.id == instId)).isSome
          if pageIsNotClosed && instanceIsActive then
            (some p, { incrementPageCount st instId with idlePages := rest })
          else if pageIsNotClosed && !instanceIsActive then
            newPageLoop newPageSucceeds rest (closePage st p)
          else
            newPageLoop newPageSucceeds rest st

/-- `PuppeteerPool.newPage` (src/puppeteer_pool.js lines 433-456). -/
def newPage (newPageSucceeds : Bool) (st : PoolState) : Option Page × PoolState :=
  newPageLoop newPageSucceeds st.idlePages { st with idlePages := [] }

/-- `PuppeteerPool.recyclePage` (src/puppeteer_pool.js lines 602-609): with
`reusePages` the page joins the idle queue, otherwise it is closed. -/
def recyclePage (st : PoolState) (p : Page) : PoolState :=
  if st.reusePages then { st with idlePages := st.idlePages ++ [p] }
  else closePage st p

/-- Identifiers of a list of instances. -/
def idsOf (l : List PuppeteerInstance) : List Nat :=
  l.map PuppeteerInstance.id

/-- A fresh retriable request, as produced by the `Request` constructor. -/
def freshRequest : Request :=
  { url := "http://example.com/2", retryCount := 0, noRetry := false, errorMessages := [] }

/-- A fresh request flagged `noRetry`. -/
def noRetryRequest : Request :=
  { url := "http://example.com/n", retryCount := 0, noRetry := true, errorMessages := [] }

/-- Demo request a. -/
def demoRequestA : Request := ⟨"http://example.com/a", 0, false, []⟩

/-- Demo request b. -/
def demoRequestB : Request := ⟨"http://example.com/b", 0, false, []⟩

/-- Demo request c. -/
def demoRequestC : Request := ⟨"http://example.com/c", 0, false, []⟩

/-- A request list with two pending requests. -/
def demoRequestList : RequestList := ⟨[demoRequestA, demoRequestB], [], []⟩

/-- A request queue with one pending request. -/
def demoRequestQueue : RequestQueue := ⟨[demoRequestC], [], []⟩

/-- A request list with one handled request. -/
def demoHandledList : RequestList := ⟨[], [], [demoRequestA]⟩

/-- A request queue with two handled requests. -/
def demoHandledQueue : RequestQueue := ⟨[], [], [demoRequestB, demoRequestC]⟩

/-- A pool whose single active instance retires after its first page:
newPage returns the idle page 7 while its owner gets retired in the same
call. -/
def poolRetireCounterexampleState : PoolState :=
  { reusePages := true
    maxOpenPagesPerInstance := 50
    retireInstanceAfterRequestCount := 1
    browserCounter := 1
    activeInstances := [⟨0, 1, 0, false⟩]
    retiredInstances := []
    idlePages := [7]
    closedPages := []
    pagesToInstances := [(7, 0)]
    pageCounter := 8 }

/-- A pool with a single live idle page on a healthy active instance. -/
def poolReuseWitnessState : PoolState :=
  { reusePages := true
    maxOpenPagesPerInstance := 50
    retireInstanceAfterRequestCount := 100
    browserCounter := 1
    activeInstances := [⟨0, 1, 0, false⟩]
    retiredInstances := []
    idlePages := [5]
    closedPages := []
    pagesToInstances := [(5, 0)]
    pageCounter := 6 }

/-- A pool with no instances and no idle pages. -/
def poolEmptyState : PoolState :=
  { reusePages := false
    maxOpenPagesPerInstance := 50
    retireInstanceAfterRequestCount := 100
    browserCounter := 0
    activeInstances := []
    retiredInstances := []
    idlePages := []
    closedPages := []
    pagesToInstances := []
    pageCounter := 0 }

/-! ## Helper lemmas -/

theorem errorHandler_retryCount_le (maxRequestRetries handledRequestsCount : Nat)
    (msg : String) (r : Request) (h : r.retryCount ≤ maxRequestRetries) :
    (requestFunctionErrorHandler maxRequestRetries handledRequestsCount msg r).request.retryCount
      ≤ maxRequestRetries := by
  simp only [requestFunctionErrorHandler, Request.pushErrorMessage]
  split
  · next hc => exact hc.2
  · exact h

theorem iterateFailures_retryCount_le (maxRequestRetries : Nat) (msgs : List String) :
    ∀ r : Request, r.retryCount ≤ maxRequestRetries →
      (iterateFailures maxRequestRetries r msgs).retryCount ≤ maxRequestRetries := by
  induction msgs with
  | nil => intro r h; exact h
  | cons msg msgs ih =>
      intro r h
      exact ih _ (errorHandler_retryCount_le maxRequestRetries 0 msg r h)

/-! ## Claim theorems -/

/-- Claim C1: when the user handler fails for a request, the crawler appends
the error message to `request.errorMessages`; then, if `noRetry` is false and
`retryCount < maxRequestRetries`, it increments `retryCount` and reclaims the
request to its source; otherwise it marks the request handled, increments
`handledRequestsCount`, and invokes `handleFailedRequestFunction`. -/
theorem errorHandler_spec (maxRequestRetries handledRequestsCount : Nat)
    (msg : String) (r : Request) :
    ((requestFunctionErrorHandler maxRequestRetries handledRequestsCount msg r).request.errorMessages
        = r.errorMessages ++ [msg])
    ∧ (if r.noRetry = false ∧ r.retryCount < maxRequestRetries then
        (requestFunctionErrorHandler maxRequestRetries handledRequestsCount msg r).request.retryCount
            = r.retryCount + 1
        ∧ (requestFunctionErrorHandler maxRequestRetries handledRequestsCount msg r).reclaimed = true
        ∧ (requestFunctionErrorHandler maxRequestRetries handledRequestsCount msg r).markedHandled = false
        ∧ (requestFunctionErrorHandler maxRequestRetries handledRequestsCount msg r).failedHandlerInvoked = false
        ∧ (requestFunctionErrorHandler maxRequestRetries handledRequestsCount msg r).handledRequestsCount
            = handledRequestsCount
      else
        (requestFunctionErrorHandler maxRequestRetries handledRequestsCount msg r).request.retryCount
            = r.retryCount
        ∧ (requestFunctionErrorHandler maxRequestRetries handledRequestsCount msg r).reclaimed = false
        ∧ (requestFunctionErrorHandler maxRequestRetries handledRequestsCount msg r).markedHandled = true
        ∧ (requestFunctionErrorHandler maxRequestRetries handledRequestsCount msg r).failedHandlerInvoked = true
        ∧ (requestFunctionErrorHandler maxRequestRetries handledRequestsCount msg r).handledRequestsCount
            = handledRequestsCount + 1) := by
  by_cases hc : r.noRetry = false ∧ r.retryCount < maxRequestRetries <;>
    simp [requestFunctionErrorHandler, Request.pushErrorMessage, hc]

/-- Claim C2 counterexample: a request flagged `noRetry = true` has the
failed-request handler invoked on its first failure, while its `retryCount`
(0) differs from `maxRequestRetries` (3) — refuting the claim that
`handleFailedRequestFunction` is invoked only when
`retryCount = maxRequestRetries` and `noRetry` is false. -/
theorem errorHandler_noRetry_counterexample :
    (requestFunctionErrorHandler 3 0 "boom" noRetryRequest).failedHandlerInvoked = true
    ∧ ¬((requestFunctionErrorHandler 3 0 "boom" noRetryRequest).request.retryCount = 3
        ∧ (requestFunctionErrorHandler 3 0 "boom" noRetryRequest).request.noRetry = false) := by
  decide

/-- Claim C2 (amended): for every request entering the error handler with
`retryCount ≤ maxRequestRetries` (as all requests do, starting from 0),
`retryCount` never exceeds `maxRequestRetries`, also under arbitrarily many
repeated failures; and `handleFailedRequestFunction` is invoked exactly when
`noRetry` is true or `retryCount` has reached `maxRequestRetries` — so for
retriable requests exactly at `retryCount = maxRequestRetries`. -/
theorem errorHandler_retryBudget (maxRequestRetries handledRequestsCount : Nat)
    (msg : String) (r : Request) (h : r.retryCount ≤ maxRequestRetries) :
    (requestFunctionErrorHandler maxRequestRetries handledRequestsCount msg r).request.retryCount
        ≤ maxRequestRetries
    ∧ ((requestFunctionErrorHandler maxRequestRetries handledRequestsCount msg r).failedHandlerInvoked = true
        ↔ (r.noRetry = true ∨ maxRequestRetries ≤ r.retryCount))
    ∧ ∀ msgs : List String,
        (iterateFailures maxRequestRetries r msgs).retryCount ≤ maxRequestRetries := by
  refine ⟨errorHandler_retryCount_le maxRequestRetries handledRequestsCount msg r h, ?_,
    fun msgs => iterateFailures_retryCount_le maxRequestRetries msgs r h⟩
  by_cases hc : r.noRetry = false ∧ r.retryCount < maxRequestRetries
  · simp [requestFunctionErrorHandler, Request.pushErrorMessage, hc]
  · simp only [requestFunctionErrorHandler, Request.pushErrorMessage]
    rw [if_neg (by simpa using hc)]
    simp only [true_iff]
    by_cases hb : r.noRetry = true
    · exact Or.inl hb
    · have hb' : r.noRetry = false := by simpa using hb
      exact Or.inr (Nat.le_of_not_lt fun hlt => hc ⟨hb', hlt⟩)

/-- Witness for the amended C2 theorem at a fresh retriable request with the
default `maxRequestRetries = 3` and a run of five consecutive failures. -/
theorem errorHandler_retryBudget_witness :
    (requestFunctionErrorHandler 3 0 "boom" freshRequest).request.retryCount ≤ 3
    ∧ ((requestFunctionErrorHandler 3 0 "boom" freshRequest).failedHandlerInvoked = true
        ↔ (freshRequest.noRetry = true ∨ 3 ≤ freshRequest.retryCount))
    ∧ (iterateFailures 3 freshRequest ["a", "b", "c", "d", "e"]).retryCount ≤ 3 :=
  ⟨(errorHandler_retryBudget 3 0 "boom" freshRequest (by decide)).1,
    (errorHandler_retryBudget 3 0 "boom" freshRequest (by decide)).2.1,
    (errorHandler_retryBudget 3 0 "boom" freshRequest (by decide)).2.2 ["a", "b", "c", "d", "e"]⟩

/-- Claim C4 counterexample: with `maxRequestsPerCrawl` set to 0 (a set value
that 0 ≤ handledRequestsCount always reaches), the installed functions do NOT
stop the crawl — 0 is falsy in JavaScript, so `isMaxPagesExceeded` yields
false, `isTaskReadyFunction` returns the underlying readiness and
`isFinishedFunction` the underlying finished check. -/
theorem maxPagesZero_counterexample :
    crawlerIsTaskReady (some 0) 0 true = true
    ∧ crawlerIsFinished (some 0) 0 false = false := by
  decide

/-- Claim C4 (amended): whenever `maxRequestsPerCrawl` is set to a nonzero
value and `handledRequestsCount` has reached at least `maxRequestsPerCrawl`,
the crawler's `isTaskReadyFunction` returns false and its
`isFinishedFunction` returns true regardless of the underlying source checks,
so no new tasks start and the autoscaled pool's run() resolves. -/
theorem maxPagesEnforced (m handledRequestsCount : Nat)
    (underlyingTaskReady underlyingFinished : Bool)
    (hm : m ≠ 0) (h : m ≤ handledRequestsCount) :
    crawlerIsTaskReady (some m) handledRequestsCount underlyingTaskReady = false
    ∧ crawlerIsFinished (some m) handledRequestsCount underlyingFinished = true := by
  simp [crawlerIsTaskReady, crawlerIsFinished, isMaxPagesExceeded, hm, h]

/-- Witness for the amended C4 theorem: limit 2, three requests handled. -/
theorem maxPagesEnforced_witness :
    crawlerIsTaskReady (some 2) 3 true = false
    ∧ crawlerIsFinished (some 2) 3 false = true :=
  maxPagesEnforced 2 3 true false (by decide) (by decide)

/-- Claim C6 counterexample: on a pool constructed with
`recycleDiskCache = true` and headful launch options, the constructor
hard-codes the internal flag to false, so the free list is null and — even
after a kill carrying a cache directory — the next launch receives no
`--disk-cache-dir` argument: the claimed recycling does not happen. -/
theorem recycleDiskCacheDisabled_counterexample :
    (mkPoolDiskCacheState { recycleDiskCache := true, headless := false }).recycleDiskCache = false
    ∧ (mkPoolDiskCacheState { recycleDiskCache := true, headless := false }).recycledDiskCacheDirs
        = none
    ∧ (launchDiskCacheArgs
        (killInstanceRecycleDiskCache
          (mkPoolDiskCacheState { recycleDiskCache := true, headless := false }) (some "dir0")).1
        []).1 = [] := by
  decide

/-- Claim C6 (amended): the recycling mechanism is implemented but gated on an
internal flag that the constructor currently hard-codes to false (pending
upstream Chromium fixes), so it is unreachable through the options. With the
internal flag on: a killed instance's cache directory is pushed onto the free
list and cleared on the instance, the next launch pops the first free
directory and passes it via a `--disk-cache-dir` argument, and destroy
removes every instance directory and every free-list directory from the
filesystem, draining the list. -/
theorem recycleDiskCacheMechanism (n : Nat) (d d0 : String)
    (rest args : List String) (instanceDirs : List (Option String))
    (dirs : List String) (hd : dirs = d0 :: rest) :
    (killInstanceRecycleDiskCache ⟨true, some dirs, n⟩ (some d)).1.recycledDiskCacheDirs
        = some (dirs ++ [d])
    ∧ (killInstanceRecycleDiskCache ⟨true, some dirs, n⟩ (some d)).2 = none
    ∧ launchDiskCacheArgs ⟨true, some dirs, n⟩ args
        = (args ++ ["--disk-cache-dir=" ++ d0], some d0, ⟨true, some rest, n⟩)
    ∧ (destroyDeleteDiskCacheDirs ⟨true, some dirs, n⟩ instanceDirs).1
        = instanceDirs.filterMap id ++ dirs
    ∧ (destroyDeleteDiskCacheDirs ⟨true, some dirs, n⟩ instanceDirs).2.recycledDiskCacheDirs
        = some [] := by
  subst hd
  simp [killInstanceRecycleDiskCache, launchDiskCacheArgs, destroyDeleteDiskCacheDirs]

/-- Witness for the amended C6 theorem: free list `["c1"]`, a kill carrying
directory "c2", one instance directory "b1" and one null instance directory. -/
theorem recycleDiskCacheMechanism_witness :
    (killInstanceRecycleDiskCache ⟨true, some ["c1"], 0⟩ (some "c2")).1.recycledDiskCacheDirs
        = some (["c1"] ++ ["c2"])
    ∧ (killInstanceRecycleDiskCache ⟨true, some ["c1"], 0⟩ (some "c2")).2 = none
    ∧ launchDiskCacheArgs ⟨true, some ["c1"], 0⟩ ["--foo"]
        = (["--foo"] ++ ["--disk-cache-dir=" ++ "c1"], some "c1", ⟨true, some [], 0⟩)
    ∧ (destroyDeleteDiskCacheDirs ⟨true, some ["c1"], 0⟩ [some "b1", none]).1
        = [some "b1", none].filterMap id ++ ["c1"]
    ∧ (destroyDeleteDiskCacheDirs ⟨true, some ["c1"], 0⟩ [some "b1", none]).2.recycledDiskCacheDirs
        = some [] :=
  recycleDiskCacheMechanism 0 "c2" "c1" [] ["--foo"] [some "b1", none] ["c1"] rfl

/-- Claim C7: after `abort()` (which clears `isRunning`), the error handler a
cancelled in-flight task lands in reclaims the request to its source exactly
as it was: no error message appended, `retryCount` unchanged, not marked
handled, `handleFailedRequestFunction` not invoked and the handled count
untouched — the abort is not counted as a handler failure. -/
theorem abortReclaimsUnchanged (st : CrawlerFlags)
    (maxRequestRetries handledRequestsCount : Nat) (msg : String) (r : Request) :
    requestFunctionErrorHandlerAbortable (abortCrawler st).isRunning
        maxRequestRetries handledRequestsCount msg r
      = { request := r
          reclaimed := true
          markedHandled := false
          failedHandlerInvoked := false
          handledRequestsCount := handledRequestsCount } := by
  rfl

/-- Claim C8: on the "migrating" event the crawler first pauses the autoscaled
pool with the 20-second safe-migration grace; when a RequestList is
configured it persists the list state strictly after the pause; and when the
pause times out it logs the failure and still proceeds to persist. -/
theorem pauseOnMigration_spec (hasRequestList pauseSucceeds persistSucceeds : Bool) :
    (pauseOnMigration hasRequestList pauseSucceeds persistSucceeds).head?
        = some (MigrationStep.pausePool 20000)
    ∧ (MigrationStep.persistRequestListState
          ∈ (pauseOnMigration hasRequestList pauseSucceeds persistSucceeds).tail
        ↔ hasRequestList = true)
    ∧ (pauseSucceeds = false →
        MigrationStep.logPauseTimeout
            ∈ (pauseOnMigration hasRequestList pauseSucceeds persistSucceeds).tail
        ∧ (hasRequestList = true →
            MigrationStep.persistRequestListState
              ∈ (pauseOnMigration hasRequestList pauseSucceeds persistSucceeds).tail)) := by
  cases hasRequestList <;> cases pauseSucceeds <;> cases persistSucceeds <;> decide

/-- Witness for the C8 theorem: list configured, pause timed out. -/
theorem pauseOnMigration_spec_witness :
    (pauseOnMigration true false true).head? = some (MigrationStep.pausePool 20000)
    ∧ MigrationStep.persistRequestListState ∈ (pauseOnMigration true false true).tail
    ∧ MigrationStep.logPauseTimeout ∈ (pauseOnMigration true false true).tail :=
  ⟨(pauseOnMigration_spec true false true).1,
    (pauseOnMigration_spec true false true).2.1.mpr rfl,
    ((pauseOnMigration_spec true false true).2.2 rfl).1⟩

/-- Claim C9: `_loadHandledRequestCount` prefers the RequestQueue's
`handledCount()` whenever a queue is bound and falls back to the
RequestList's `handledCount()` only when no queue is present. -/
theorem loadHandledRequestCount_prefersQueue (st : CrawlerInitState) :
    (∀ q : RequestQueue, st.requestQueue = some q →
        loadHandledRequestCount st = q.handledCount)
    ∧ (∀ l : RequestList, st.requestQueue = none → st.requestList = some l →
        loadHandledRequestCount st = l.handledCount) := by
  constructor
  · intro q hq
    simp [loadHandledRequestCount, hq]
  · intro l hq hl
    simp [loadHandledRequestCount, hq, hl]

/-- Witness for the C9 theorem: with both sources bound the queue's count (2)
wins over the list's (1); with only a list its count is used. -/
theorem loadHandledRequestCount_prefersQueue_witness :
    loadHandledRequestCount ⟨some demoHandledList, some demoHandledQueue, 0⟩
        = demoHandledQueue.handledCount
    ∧ loadHandledRequestCount ⟨some demoHandledList, none, 0⟩
        = demoHandledList.handledCount :=
  ⟨(loadHandledRequestCount_prefersQueue ⟨some demoHandledList, some demoHandledQueue, 0⟩).1
      demoHandledQueue rfl,
    (loadHandledRequestCount_prefersQueue ⟨some demoHandledList, none, 0⟩).2
      demoHandledList rfl rfl⟩

/-- Claim C10: `run()` is idempotent while a crawl is in progress — a second
`run()` returns the very promise stored by the first call and leaves the
crawler state unchanged, so no second AutoscaledPool is constructed
(`poolsCreated` part of the state) and the crawl is not restarted. -/
theorem runIdempotent (st : CrawlerRunState) (loaded1 loaded2 : Nat) :
    runCrawler loaded2 (runCrawler loaded1 st).2
      = ((runCrawler loaded1 st).1, (runCrawler loaded1 st).2) := by
  cases h : st.isRunningPromise <;> simp [runCrawler, h]

/-- Claim C3: with both a RequestList and a RequestQueue configured and the
list still holding requests, `_fetchNextRequest` takes the next request from
the list, enqueues it to the queue with `forefront = true`, marks it handled
in the list and returns the queue's next request; when the enqueue fails the
request is reclaimed back to the list — restoring the sources exactly as they
were — and the call returns null for this tick. -/
theorem fetchNextRequest_listAndQueue (l : RequestList) (q : RequestQueue)
    (r : Request) (rest : List Request) (hl : l.pending = r :: rest) :
    fetchNextRequest true ⟨some l, some q⟩
      = (((q.addRequest r true).fetchNextRequest).1,
          ⟨some (RequestList.markRequestHandled ⟨rest, r :: l.inProgress, l.handled⟩ r),
            some ((q.addRequest r true).fetchNextRequest).2⟩)
    ∧ fetchNextRequest false ⟨some l, some q⟩ = (none, ⟨some l, some q⟩) := by
  obtain ⟨pend, ip, hd⟩ := l
  simp only at hl
  subst hl
  constructor
  · simp [fetchNextRequest, RequestList.fetchNextRequest]
  · simp [fetchNextRequest, RequestList.fetchNextRequest, RequestList.reclaimRequest]

/-- Witness for the C3 theorem: list `[a, b]`, queue `[c]`, taking `a`. -/
theorem fetchNextRequest_listAndQueue_witness :
    fetchNextRequest true ⟨some demoRequestList, some demoRequestQueue⟩
      = (((demoRequestQueue.addRequest demoRequestA true).fetchNextRequest).1,
          ⟨some (RequestList.markRequestHandled
              ⟨[demoRequestB], demoRequestA :: demoRequestList.inProgress,
                demoRequestList.handled⟩ demoRequestA),
            some ((demoRequestQueue.addRequest demoRequestA true).fetchNextRequest).2⟩)
    ∧ fetchNextRequest false ⟨some demoRequestList, some demoRequestQueue⟩
      = (none, ⟨some demoRequestList, some demoRequestQueue⟩) :=
  fetchNextRequest_listAndQueue demoRequestList demoRequestQueue demoRequestA [demoRequestB] rfl

@[simp] theorem retireInstance_browserCounter (st : PoolState) (i0 : Nat) :
    (retireInstance st i0).browserCounter = st.browserCounter := by
  unfold retireInstance
  split <;> rfl

@[simp] theorem retireInstance_pageCounter (st : PoolState) (i0 : Nat) :
    (retireInstance st i0).pageCounter = st.pageCounter := by
  unfold retireInstance
  split <;> rfl

@[simp] theorem retireInstance_pagesToInstances (st : PoolState) (i0 : Nat) :
    (retireInstance st i0).pagesToInstances = st.pagesToInstances := by
  unfold retireInstance
  split <;> rfl

@[simp] theorem retireInstance_closedPages (st : PoolState) (i0 : Nat) :
    (retireInstance st i0).closedPages = st.closedPages := by
  unfold retireInstance
  split <;> rfl

@[simp] theorem incrementPageCount_browserCounter (st : PoolState) (i0 : Nat) :
    (incrementPageCount st i0).browserCounter = st.browserCounter := by
  unfold incrementPageCount
  dsimp only
  split
  · rfl
  · split <;> simp

@[simp] theorem incrementPageCount_pageCounter (st : PoolState) (i0 : Nat) :
    (incrementPageCount st i0).pageCounter = st.pageCounter := by
  unfold incrementPageCount
  dsimp only
  split
  · rfl
  · split <;> simp

@[simp] theorem incrementPageCount_pagesToInstances (st : PoolState) (i0 : Nat) :
    (incrementPageCount st i0).pagesToInstances = st.pagesToInstances := by
  unfold incrementPageCount
  dsimp only
  split
  · rfl
  · split <;> simp

@[simp] theorem incrementPageCount_closedPages (st : PoolState) (i0 : Nat) :
    (incrementPageCount st i0).closedPages = st.closedPages := by
  unfold incrementPageCount
  dsimp only
  split
  · rfl
  · split <;> simp

@[simp] theorem bumpActivePages_browserCounter (st : PoolState) (i0 : Nat) :
    (bumpActivePages st i0).browserCounter = st.browserCounter := rfl

@[simp] theorem bumpActivePages_pageCounter (st : PoolState) (i0 : Nat) :
    (bumpActivePages st i0).pageCounter = st.pageCounter := rfl

@[simp] theorem bumpActivePages_pagesToInstances (st : PoolState) (i0 : Nat) :
    (bumpActivePages st i0).pagesToInstances = st.pagesToInstances := rfl

@[simp] theorem openNewTabPick_pageCounter (st : PoolState) :
    (openNewTabPick st).2.pageCounter = st.pageCounter := by
  unfold openNewTabPick
  split <;> rfl

@[simp] theorem openNewTabPick_pagesToInstances (st : PoolState) :
    (openNewTabPick st).2.pagesToInstances = st.pagesToInstances := by
  unfold openNewTabPick
  split <;> rfl

theorem openNewTab_trueEq (st : PoolState) :
    openNewTab true st
      = (some st.pageCounter,
          { bumpActivePages
              (incrementPageCount (openNewTabPick st).2 (openNewTabPick st).1.id)
              (openNewTabPick st).1.id with
            pageCounter := st.pageCounter + 1
            pagesToInstances :=
              (st.pageCounter, (openNewTabPick st).1.id) :: st.pagesToInstances }) := by
  have h1 : (bumpActivePages
      (incrementPageCount (openNewTabPick st).2 (openNewTabPick st).1.id)
      (openNewTabPick st).1.id).pageCounter = st.pageCounter := by simp
  have h2 : (bumpActivePages
      (incrementPageCount (openNewTabPick st).2 (openNewTabPick st).1.id)
      (openNewTabPick st).1.id).pagesToInstances = st.pagesToInstances := by simp
  unfold openNewTab
  simp only [if_true]
  rw [h1, h2]

theorem openNewTab_falseEq (st : PoolState) :
    openNewTab false st
      = (none,
          retireInstance
            (bumpActivePages
              (incrementPageCount (openNewTabPick st).2 (openNewTabPick st).1.id)
              (openNewTabPick st).1.id)
            (openNewTabPick st).1.id) := rfl

theorem idsOf_updateInstance (l : List PuppeteerInstance) (i0 : Nat)
    (f : PuppeteerInstance → PuppeteerInstance) (hf : ∀ i, (f i).id = i.id) :
    idsOf (updateInstance l i0 f) = idsOf l := by
  induction l with
  | nil => rfl
  | cons a tl ih =>
      show ((if a.id = i0 then f a else a) :: updateInstance tl i0 f).map PuppeteerInstance.id
          = (a :: tl).map PuppeteerInstance.id
      simp only [List.map_cons]
      refine congrArg₂ _ ?_ ih
      split <;> simp [hf]

theorem mem_idsOf_retireInstance (st : PoolState) (t a : Nat)
    (h : a ∈ idsOf st.activeInstances ∨ a ∈ idsOf st.retiredInstances) :
    a ∈ idsOf (retireInstance st t).activeInstances
      ∨ a ∈ idsOf (retireInstance st t).retiredInstances := by
  unfold retireInstance
  cases hf : st.activeInstances.find? (fun i => i.id == t) with
  | none => simpa using h
  | some inst =>
      have hit : inst.id = t := by simpa using List.find?_some hf
      rcases h with h | h
      · by_cases hat : a = t
        · right
          subst hat
          simp [idsOf, hit]
        · left
          simp only [idsOf, List.mem_map] at h ⊢
          obtain ⟨j, hj, hja⟩ := h
          exact ⟨j, List.mem_filter.mpr ⟨hj, by simp [hja, hat]⟩, hja⟩
      · right
        simp only [idsOf, List.map_append, List.mem_append]
        exact Or.inl h

theorem mem_retiredIds_retireInstance_self (st : PoolState) (t : Nat)
    (h : t ∈ idsOf st.activeInstances ∨ t ∈ idsOf st.retiredInstances) :
    t ∈ idsOf (retireInstance st t).retiredInstances := by
  unfold retireInstance
  cases hf : st.activeInstances.find? (fun i => i.id == t) with
  | none =>
      have hna : t ∉ idsOf st.activeInstances := by
        intro ht
        simp only [idsOf, List.mem_map] at ht
        obtain ⟨j, hj, hjt⟩ := ht
        have := List.find?_eq_none.mp hf j hj
        simp [hjt] at this
      rcases h with h | h
      · exact absurd h hna
      · simpa using h
  | some inst =>
      have hit : inst.id = t := by simpa using List.find?_some hf
      simp [idsOf, hit]

theorem mem_ids_incrementPageCount (st : PoolState) (i0 a : Nat)
    (h : a ∈ idsOf st.activeInstances ∨ a ∈ idsOf st.retiredInstances) :
    a ∈ idsOf (incrementPageCount st i0).activeInstances
      ∨ a ∈ idsOf (incrementPageCount st i0).retiredInstances := by
  have hup : ∀ l : List PuppeteerInstance,
      idsOf (updateInstance l i0 fun i => { i with totalPages := i.totalPages + 1 }) = idsOf l :=
    fun l => idsOf_updateInstance l i0 _ fun i => rfl
  unfold incrementPageCount
  dsimp only
  split
  · simpa [hup] using h
  · split
    · exact mem_idsOf_retireInstance _ _ a (by simpa [hup] using h)
    · simpa [hup] using h

theorem mem_ids_bumpActivePages (st : PoolState) (i0 a : Nat)
    (h : a ∈ idsOf st.activeInstances ∨ a ∈ idsOf st.retiredInstances) :
    a ∈ idsOf (bumpActivePages st i0).activeInstances
      ∨ a ∈ idsOf (bumpActivePages st i0).retiredInstances := by
  have hup : ∀ l : List PuppeteerInstance,
      idsOf (updateInstance l i0 fun i => { i with activePages := i.activePages + 1 }) = idsOf l :=
    fun l => idsOf_updateInstance l i0 _ fun i => rfl
  unfold bumpActivePages
  simpa [hup] using h

theorem openNewTabPick_id_mem (st : PoolState) :
    (openNewTabPick st).1.id ∈ idsOf (openNewTabPick st).2.activeInstances := by
  unfold openNewTabPick
  cases hf : st.activeInstances.find?
      (fun i => decide (i.activePages < st.maxOpenPagesPerInstance)) with
  | some i =>
      have := List.mem_of_find?_eq_some hf
      simp only [idsOf, List.mem_map]
      exact ⟨i, this, rfl⟩
  | none =>
      simp [launchInstance, idsOf]

theorem newPageLoop_some_mem (ok : Bool) (pages : List Page) :
    ∀ (st : PoolState) (p : Page) (st' : PoolState),
      newPageLoop ok pages st = (some p, st') → p ∈ pages ∨ p = st.pageCounter := by
  induction pages with
  | nil =>
      intro st p st' h
      right
      have h' : openNewTab ok st = (some p, st') := h
      cases ok
      · rw [openNewTab_falseEq] at h'
        exact absurd (congrArg Prod.fst h') (by simp)
      · rw [openNewTab_trueEq] at h'
        have := congrArg Prod.fst h'
        simpa using this.symm
  | cons q rest ih =>
      intro st p st' h
      simp only [newPageLoop] at h
      cases hl : st.pagesToInstances.lookup q with
      | none =>
          simp only [hl] at h
          rcases ih st p st' h with hm | hp
          · exact Or.inl (List.mem_cons_of_mem q hm)
          · exact Or.inr hp
      | some instId =>
          simp only [hl] at h
          by_cases hcond : (!(st.closedPages.contains q)
              && (st.activeInstances.find? fun i => i.id == instId).isSome) = true
          · rw [if_pos hcond] at h
            have hpq : p = q := by
              have := congrArg Prod.fst h
              simpa using this.symm
            exact Or.inl (hpq ▸ List.mem_cons_self q rest)
          · rw [if_neg hcond] at h
            by_cases hcond2 : (!(st.closedPages.contains q)
                && !(st.activeInstances.find? fun i => i.id == instId).isSome) = true
            · rw [if_pos hcond2] at h
              rcases ih (closePage st q) p st' h with hm | hp
              · exact Or.inl (List.mem_cons_of_mem q hm)
              · exact Or.inr hp
            · rw [if_neg hcond2] at h
              rcases ih st p st' h with hm | hp
              · exact Or.inl (List.mem_cons_of_mem q hm)
              · exact Or.inr hp

theorem newPageLoop_reuse (ok : Bool) (pages : List Page) :
    ∀ (st : PoolState) (p : Page) (st' : PoolState),
      newPageLoop ok pages st = (some p, st') → p ∈ pages → st.pageCounter ∉ pages →
      p ∉ st.closedPages
        ∧ ∃ i, i ∈ st.activeInstances ∧ st.pagesToInstances.lookup p = some i.id := by
  induction pages with
  | nil =>
      intro st p st' _ hm _
      exact absurd hm (List.not_mem_nil p)
  | cons q rest ih =>
      intro st p st' h hm hctr
      simp only [newPageLoop] at h
      cases hl : st.pagesToInstances.lookup q with
      | none =>
          simp only [hl] at h
          rcases newPageLoop_some_mem ok rest st p st' h with hm' | hp
          · exact ih st p st' h hm' fun hin => hctr (List.mem_cons_of_mem q hin)
          · exact absurd (hp ▸ hm) hctr
      | some instId =>
          simp only [hl] at h
          by_cases hcond : (!(st.closedPages.contains q)
              && (st.activeInstances.find? fun i => i.id == instId).isSome) = true
          · rw [if_pos hcond] at h
            have hpq : p = q := by
              have := congrArg Prod.fst h
              simpa using this.symm
            subst hpq
            have hand : (!(st.closedPages.contains p)) = true
                ∧ (st.activeInstances.find? fun i => i.id == instId).isSome = true :=
              Bool.and_eq_true _ _ ▸ hcond
            have hnc : st.closedPages.contains p = false := by simpa using hand.1
            have hnotmem : p ∉ st.closedPages := by simpa using hnc
            obtain ⟨i, hi⟩ := Option.isSome_iff_exists.mp hand.2
            have hmemi : i ∈ st.activeInstances := List.mem_of_find?_eq_some hi
            have hid : i.id = instId := by simpa using List.find?_some hi
            exact ⟨hnotmem, ⟨i, hmemi, by rw [hl, hid]⟩⟩
          · rw [if_neg hcond] at h
            by_cases hcond2 : (!(st.closedPages.contains q)
                && !(st.activeInstances.find? fun i => i.id == instId).isSome) = true
            · rw [if_pos hcond2] at h
              rcases newPageLoop_some_mem ok rest (closePage st q) p st' h with hm' | hp
              · have hres := ih (closePage st q) p st' h hm'
                  fun hin => hctr (List.mem_cons_of_mem q hin)
                refine ⟨fun hmem2 => hres.1 ?_, ?_⟩
                · exact List.mem_cons_of_mem q hmem2
                · exact hres.2
              · exact absurd (hp ▸ hm) hctr
            · rw [if_neg hcond2] at h
              rcases newPageLoop_some_mem ok rest st p st' h with hm' | hp
              · exact ih st p st' h hm' fun hin => hctr (List.mem_cons_of_mem q hin)
              · exact absurd (hp ▸ hm) hctr

/-- Claim C5 counterexample: on a pool with
`retireInstanceAfterRequestCount = 1` and `reusePages` on, `newPage()`
returns the idle page 7 while `_incrementPageCount` — run inside the same
call, after the liveness verification — retires the page's instance, so the
returned page is bound to a RETIRED, not an ACTIVE, instance. -/
theorem newPageRetired_counterexample :
    (newPage true poolRetireCounterexampleState).1 = some 7
    ∧ (newPage true poolRetireCounterexampleState).2.activeInstances = []
    ∧ idsOf (newPage true poolRetireCounterexampleState).2.retiredInstances = [0]
    ∧ (newPage true poolRetireCounterexampleState).2.pagesToInstances.lookup 7 = some 0 := by
  decide

/-- Claim C5 (amended): `newPage()` verifies its candidates — a reused idle
page is returned only if it is not closed and its parent instance is active
at verification time; when the idle queue yields nothing and no active
instance has `activePages < maxOpenPagesPerInstance`, a new instance is
launched and the fresh page is bound to it; and when opening the page fails
the used instance is retired and the error propagates (no page is returned).
However the returned page's instance is only guaranteed active at
verification time: the retire-after-request-count policy may retire it
within the same `newPage()` call before the page is handed back. -/
theorem newPageContract :
    (∀ (ok : Bool) (st : PoolState) (p : Page) (st' : PoolState),
        (∀ q ∈ st.idlePages, q < st.pageCounter) →
        newPage ok st = (some p, st') → p ∈ st.idlePages →
        p ∉ st.closedPages
          ∧ ∃ i, i ∈ st.activeInstances ∧ st.pagesToInstances.lookup p = some i.id)
    ∧ (∀ st : PoolState,
        (∀ i ∈ st.activeInstances, ¬ i.activePages < st.maxOpenPagesPerInstance) →
        (openNewTab true st).1 = some st.pageCounter
        ∧ (openNewTab true st).2.browserCounter = st.browserCounter + 1
        ∧ (openNewTab true st).2.pagesToInstances.lookup st.pageCounter
            = some st.browserCounter)
    ∧ (∀ st : PoolState,
        (openNewTab false st).1 = none
        ∧ openNewTabInstanceId st ∈ idsOf (openNewTab false st).2.retiredInstances) := by
  refine ⟨?_, ?_, ?_⟩
  · intro ok st p st' hctr h hm
    have hctr' : st.pageCounter ∉ st.idlePages :=
      fun hin => Nat.lt_irrefl st.pageCounter (hctr st.pageCounter hin)
    exact newPageLoop_reuse ok st.idlePages { st with idlePages := [] } p st' h hm hctr'
  · intro st hno
    have hf : st.activeInstances.find?
        (fun i => decide (i.activePages < st.maxOpenPagesPerInstance)) = none :=
      List.find?_eq_none.mpr fun i hi => by simpa using hno i hi
    have hpick : openNewTabPick st = launchInstance st := by
      unfold openNewTabPick
      rw [hf]
    rw [openNewTab_trueEq]
    refine ⟨rfl, ?_, ?_⟩
    · simp [hpick, launchInstance]
    · simp [hpick, launchInstance, List.lookup]
  · intro st
    rw [openNewTab_falseEq]
    refine ⟨rfl, ?_⟩
    apply mem_retiredIds_retireInstance_self
    apply mem_ids_bumpActivePages
    apply mem_ids_incrementPageCount
    exact Or.inl (openNewTabPick_id_mem st)

/-- Witness for the amended C5 theorem: the reuse branch on a healthy pool
returning idle page 5, and the launch / failure branches on an empty pool. -/
theorem newPageContract_witness :
    ((5 : Page) ∉ poolReuseWitnessState.closedPages
      ∧ ∃ i, i ∈ poolReuseWitnessState.activeInstances
          ∧ poolReuseWitnessState.pagesToInstances.lookup 5 = some i.id)
    ∧ ((openNewTab true poolEmptyState).1 = some poolEmptyState.pageCounter
      ∧ (openNewTab true poolEmptyState).2.browserCounter = poolEmptyState.browserCounter + 1
      ∧ (openNewTab true poolEmptyState).2.pagesToInstances.lookup poolEmptyState.pageCounter
          = some poolEmptyState.browserCounter)
    ∧ ((openNewTab false poolEmptyState).1 = none
      ∧ openNewTabInstanceId poolEmptyState
          ∈ idsOf (openNewTab false poolEmptyState).2.retiredInstances) :=
  ⟨newPageContract.1 true poolReuseWitnessState 5 (newPage true poolReuseWitnessState).2
      (by decide) (by decide) (by decide),
    newPageContract.2.1 poolEmptyState (by decide),
    newPageContract.2.2 poolEmptyState⟩
